import Mathlib

/-!
Verification of the real-time media/transcription core of the
`online_meeting` application (four JavaScript revisions: `src/index.js`,
`src/unnamed/part_000`, `src/unnamed/part_001`, `src/unnamed/part_002`)
against its natural-language specification.

The JavaScript is shallowly embedded:

* audio samples are exact rationals (`ℚ`); multiplying a float by the
  power of two `32768` is exact in IEEE doubles, and the sample-rate
  quotients appearing here are far from the rounding boundaries of
  `Math.round`, so rational arithmetic coincides with the source's
  float arithmetic on the quantities these theorems discuss;
* the 16-bit store `int16[i] = v` of a JS `Int16Array` is the `ToInt16`
  conversion: truncation toward zero followed by reduction mod `2 ^ 16`
  into `[-32768, 32767]`;
* a float result of `0 / 0` (`NaN`) is represented by `none` in an
  `Option ℚ`;
* text is `List Char`; the JS emptiness test `!text.trim()` holds
  exactly when every character of the text is whitespace;
* timers, fragments and commits are timestamped with `ℕ` milliseconds;
* the mutable module state of each revision is a structure, and each
  teardown function returns the new state together with a log of the
  external release operations it actually invoked (each one guarded in
  the source by the corresponding null test).
-/

/-! ## JavaScript numeric primitives -/

/-- `Math.round` of JavaScript: `⌊x + 1/2⌋` (halves round toward `+∞`),
which is exactly Mathlib's `round` on `ℚ` (`round_eq`). Kept as its own
definition so the embedding names the JS operation it translates. -/
def jsRound (x : ℚ) : ℤ := round x

/-- Truncation toward zero, the `ToIntegerOrInfinity` step of the JS
abstract operation `ToInt16` applied by an `Int16Array` element store. -/
def jsTrunc (x : ℚ) : ℤ := if 0 ≤ x then ⌊x⌋ else ⌈x⌉

/-- Reduction of an integer into the signed 16-bit range, the second step
of the JS abstract operation `ToInt16`. -/
def toInt16 (n : ℤ) : ℤ :=
  if n % 65536 < 32768 then n % 65536 else n % 65536 - 65536

/-! ## Frame Encoder (`createBlob`, identical in all four revisions;
`src/index.js` lines 548-565) -/

/-- One sample of `createBlob`'s loop: `int16[i] = data[i] * 32768`.
The float product `data[i] * 32768` is exact (scaling by a power of two),
and the `Int16Array` store performs `ToInt16`: truncation toward zero,
then wraparound mod `2 ^ 16`. -/
def encodeSample (s : ℚ) : ℤ := toInt16 (jsTrunc (s * 32768))

/-- Little-endian byte pair of one stored 16-bit element, as exposed by
`new Uint8Array(int16.buffer)` in `createBlob`. -/
def int16ToBytes (v : ℤ) : List ℕ :=
  [(v % 65536).toNat % 256, (v % 65536).toNat / 256]

/-- The `EncodedChunk` handed to the recognition uplink. `data` is the
byte view of the `Int16Array`; the source additionally base64-encodes
these bytes (`encode`/`btoa`), an injective transport encoding that does
not change the represented samples and is left out of the embedding. -/
structure EncodedChunk where
  data : List ℕ
  mimeType : String
deriving DecidableEq

/-- `createBlob` (`src/index.js` lines 556-565, `src/unnamed/part_000`
lines 598-607): converts each float sample with the `Int16Array` store
and packs the buffer's byte view with the fixed format tag. -/
def createBlob (data : List ℚ) : EncodedChunk :=
  { data := ((data.map encodeSample).map int16ToBytes).flatten
    mimeType := "audio/pcm;rate=16000" }

/-- Standard decoding of little-endian signed 16-bit PCM back to float
samples in `[-1, 1)`: the inverse direction of the wire format
`audio/pcm;rate=16000` used to state the round-trip property. -/
def decodePcm16 : List ℕ → List ℚ
  | b0 :: b1 :: rest =>
      (if b0 + 256 * b1 < 32768 then ((b0 + 256 * b1 : ℕ) : ℚ)
       else ((b0 + 256 * b1 : ℕ) : ℚ) - 65536) / 32768 :: decodePcm16 rest
  | _ => []

lemma toInt16_eq_self (n : ℤ) (h1 : -32768 ≤ n) (h2 : n < 32768) :
    toInt16 n = n := by
  unfold toInt16
  omega

lemma jsTrunc_mem (x : ℚ) (h1 : -32768 ≤ x) (h2 : x < 32768) :
    -32768 ≤ jsTrunc x ∧ jsTrunc x < 32768 := by
  unfold jsTrunc
  split
  · constructor
    · have : (0 : ℤ) ≤ ⌊x⌋ := Int.floor_nonneg.mpr (by assumption)
      omega
    · exact Int.floor_lt.mpr (by push_cast; linarith)
  · constructor
    · have hx : ((-32768 : ℤ) : ℚ) ≤ x := by push_cast; linarith
      have := Int.le_ceil x
      exact_mod_cast hx.trans this
    · have : ⌈x⌉ ≤ 0 := Int.ceil_le.mpr (by push_cast; linarith)
      omega

lemma jsTrunc_near_round (x : ℚ) : |jsTrunc x - round x| ≤ 1 := by
  have hfl : ⌊x⌋ ≤ round x := by
    rw [round_eq]
    exact Int.floor_le_floor (by linarith)
  have hfu : round x ≤ ⌊x⌋ + 1 := by
    rw [round_eq]
    calc ⌊x + 1 / 2⌋ ≤ ⌊x + 1⌋ := Int.floor_le_floor (by linarith)
      _ = ⌊x⌋ + 1 := by rw [Int.floor_add_one]
  have htl : ⌊x⌋ ≤ jsTrunc x := by
    unfold jsTrunc
    split
    · exact le_refl _
    · exact Int.floor_le_ceil x
  have htu : jsTrunc x ≤ ⌊x⌋ + 1 := by
    unfold jsTrunc
    split
    · omega
    · exact Int.ceil_le_floor_add_one x
  rw [abs_le]
  omega

lemma decode_int16ToBytes (v : ℤ) (h1 : -32768 ≤ v) (h2 : v < 32768)
    (rest : List ℕ) :
    decodePcm16 (int16ToBytes v ++ rest) =
      ((v : ℚ) / 32768) :: decodePcm16 rest := by
  unfold int16ToBytes
  simp only [List.cons_append, List.nil_append, decodePcm16]
  congr 1
  have hb : ((v % 65536).toNat % 256 + 256 * ((v % 65536).toNat / 256) : ℕ)
      = (v % 65536).toNat := by omega
  rw [hb]
  by_cases hv : 0 ≤ v
  · rw [if_pos (by omega)]
    congr 1
    have hval : (((v % 65536).toNat : ℕ) : ℤ) = v := by omega
    exact_mod_cast hval
  · rw [if_neg (by omega)]
    congr 1
    have hval : (((v % 65536).toNat : ℕ) : ℤ) = v + 65536 := by omega
    have hq : (((v % 65536).toNat : ℕ) : ℚ) = (v : ℚ) + 65536 := by
      exact_mod_cast hval
    rw [hq]
    ring

lemma encodeSample_in_range (h1 : -1 ≤ s) (h2 : s < 1) :
    encodeSample s = jsTrunc (s * 32768) := by
  unfold encodeSample
  have hmem := jsTrunc_mem (s * 32768) (by linarith) (by linarith)
  exact toInt16_eq_self _ hmem.1 hmem.2

/-! ## Claims about the Frame Encoder -/

/-- C1, counterexample: at the in-range sample `s = 3/65536` the stored
16-bit value is the truncation `1`, not `round(s * 32768) = round(3/2) = 2`
claimed by the spec. -/
theorem c1_counterexample :
    encodeSample ((3 : ℚ) / 65536) ≠ round (((3 : ℚ) / 65536) * 32768) := by
  have h1 : encodeSample ((3 : ℚ) / 65536) = 1 := by
    unfold encodeSample jsTrunc toInt16
    norm_num [Int.floor_eq_iff]
  have h2 : round (((3 : ℚ) / 65536) * 32768) = 2 := by
    norm_num [round_eq, Int.floor_eq_iff]
  rw [h1, h2]
  decide

/-- C1, amended: for `s ∈ [-1, 1)` the Frame Encoder stores the
truncation toward zero `trunc(s * 32768)` (the JS `Int16Array` store,
not `round`, and with no clamping; `s = 1` and `|s| > 1` wrap mod
`2 ^ 16`), decoding the `EncodedChunk` recovers exactly
`trunc(s * 32768) / 32768`, and that value is within one quantization
step (`1/32768`) of the spec's `round(s * 32768) / 32768`. -/
theorem c1_theorem (s : ℚ) (h1 : -1 ≤ s) (h2 : s < 1) :
    encodeSample s = jsTrunc (s * 32768) ∧
    decodePcm16 (createBlob [s]).data = [(jsTrunc (s * 32768) : ℚ) / 32768] ∧
    |(jsTrunc (s * 32768) : ℚ) / 32768 - (round (s * 32768) : ℚ) / 32768|
      ≤ 1 / 32768 := by
  have henc := encodeSample_in_range h1 h2
  have hmem := jsTrunc_mem (s * 32768) (by linarith) (by linarith)
  refine ⟨henc, ?_, ?_⟩
  · show decodePcm16 (((([s].map encodeSample).map int16ToBytes)).flatten) = _
    simp only [List.map_cons, List.map_nil, List.flatten_cons, List.flatten_nil]
    rw [henc, decode_int16ToBytes _ hmem.1 hmem.2 []]
    rfl
  · have hnear := jsTrunc_near_round (s * 32768)
    rw [div_sub_div_same, abs_div, abs_of_pos (by norm_num : (0 : ℚ) < 32768),
      div_le_div_iff_of_pos_right (by norm_num : (0 : ℚ) < 32768)]
    have : |(jsTrunc (s * 32768) : ℚ) - (round (s * 32768) : ℚ)|
        = ((|jsTrunc (s * 32768) - round (s * 32768)| : ℤ) : ℚ) := by
      push_cast
      rfl
    rw [this]
    exact_mod_cast hnear

/-- C1, witness: the amended statement instantiated at `s = 3/65536`. -/
theorem c1_witness :
    encodeSample ((3 : ℚ) / 65536) = jsTrunc (((3 : ℚ) / 65536) * 32768) ∧
    decodePcm16 (createBlob [(3 : ℚ) / 65536]).data
      = [(jsTrunc (((3 : ℚ) / 65536) * 32768) : ℚ) / 32768] ∧
    |(jsTrunc (((3 : ℚ) / 65536) * 32768) : ℚ) / 32768
      - (round (((3 : ℚ) / 65536) * 32768) : ℚ) / 32768| ≤ 1 / 32768 :=
  c1_theorem ((3 : ℚ) / 65536) (by norm_num) (by norm_num)

/-! ## Resampler (`resampleBuffer`, `src/unnamed/part_000` lines 391-415
and `src/unnamed/part_002` lines 395-419, identical code) -/

/-- The loop bound update `nextOffsetBuffer = Math.round((offsetResult + 1)
* sampleRateRatio)` of `resampleBuffer` (always nonnegative here, so the
JS float is represented by the `ℕ` value of the rounded rational). -/
def nextOffsetBuffer (rq : ℚ) (offsetResult : ℕ) : ℕ :=
  (jsRound (((offsetResult : ℚ) + 1) * rq)).toNat

/-- The inner `for` loop accumulator of `resampleBuffer`: the sum of
`inputBuffer[i]` for `i` from `lo` while `i < hi`. -/
def windowSum (input : List ℚ) (lo hi : ℕ) : ℚ :=
  ((List.range' lo (hi - lo)).map (fun i => input.getD i 0)).sum

/-- The `while (offsetResult < result.length)` loop of `resampleBuffer`,
by recursion on the number of output slots still to fill. Each slot
averages the window `[offsetBuffer, min nextOffsetBuffer len)`; an empty
window makes the JS expression `accum / count` evaluate `0 / 0 = NaN`,
represented by `none`. -/
def resampleGo (input : List ℚ) (rq : ℚ) : ℕ → ℕ → ℕ → List (Option ℚ)
  | _, _, 0 => []
  | offsetResult, offsetBuffer, remaining + 1 =>
    (if min (nextOffsetBuffer rq offsetResult) input.length - offsetBuffer = 0
     then none
     else some (windowSum input offsetBuffer
          (min (nextOffsetBuffer rq offsetResult) input.length) /
        ((min (nextOffsetBuffer rq offsetResult) input.length - offsetBuffer : ℕ) : ℚ)))
      :: resampleGo input rq (offsetResult + 1) (nextOffsetBuffer rq offsetResult) remaining

/-- `resampleBuffer(inputBuffer, targetSampleRate)` with the surrounding
`audioContext.sampleRate` passed explicitly as `inputSampleRate` (the
source's initial `if (!audioContext) return inputBuffer;` guard concerns
a null ambient context and is outside this model). If the rates are
equal the input is returned unchanged; otherwise
`newLength = Math.round(len / sampleRateRatio)` slots are produced. -/
def resampleBuffer (inputBuffer : List ℚ) (inputSampleRate targetSampleRate : ℚ) :
    List (Option ℚ) :=
  if inputSampleRate = targetSampleRate then inputBuffer.map some
  else
    resampleGo inputBuffer (inputSampleRate / targetSampleRate) 0 0
      ((jsRound ((inputBuffer.length : ℚ) / (inputSampleRate / targetSampleRate))).toNat)

lemma jsRound_nonneg (x : ℚ) (h : 0 ≤ x) : (0 : ℤ) ≤ jsRound x := by
  unfold jsRound
  rw [round_eq]
  exact Int.le_floor.mpr (by push_cast; linarith)

lemma resampleGo_length (input : List ℚ) (rq : ℚ) :
    ∀ remaining offsetResult offsetBuffer,
      (resampleGo input rq offsetResult offsetBuffer remaining).length = remaining := by
  intro remaining
  induction remaining with
  | zero => intro o b; rfl
  | succ r ih =>
    intro o b
    simp only [resampleGo, List.length_cons, ih]

lemma window_lower (len : ℕ) (rq : ℚ) (hrq : 1 < rq) (i N : ℕ)
    (hN : (N : ℤ) = jsRound ((len : ℚ) / rq)) (hi : i < N) :
    (jsRound ((i : ℚ) * rq)).toNat < min (nextOffsetBuffer rq i) len := by
  have hrq0 : (0 : ℚ) < rq := lt_trans one_pos hrq
  have ha0 : (0 : ℤ) ≤ jsRound ((i : ℚ) * rq) :=
    jsRound_nonneg _ (by positivity)
  have hb : jsRound ((i : ℚ) * rq) + 1 ≤ jsRound (((i : ℚ) + 1) * rq) := by
    unfold jsRound
    rw [round_eq, round_eq]
    calc ⌊(i : ℚ) * rq + 1 / 2⌋ + 1 = ⌊(i : ℚ) * rq + 1 / 2 + 1⌋ :=
          (Int.floor_add_one _).symm
      _ ≤ ⌊((i : ℚ) + 1) * rq + 1 / 2⌋ := Int.floor_le_floor (by nlinarith)
  have hc : jsRound ((i : ℚ) * rq) < (len : ℤ) := by
    have hiN : (i : ℚ) + 1 ≤ (N : ℚ) := by exact_mod_cast hi
    have hround : (N : ℚ) ≤ (len : ℚ) / rq + 1 / 2 := by
      have habs := abs_le.mp (abs_sub_round ((len : ℚ) / rq))
      have hcast : (N : ℚ) = ((round ((len : ℚ) / rq) : ℤ) : ℚ) := by
        rw [show round ((len : ℚ) / rq) = (N : ℤ) from hN.symm]
        push_cast
        rfl
      rw [hcast]
      linarith
    have h3 : (i : ℚ) ≤ (len : ℚ) / rq - 1 / 2 := by linarith
    have h4 : (i : ℚ) * rq ≤ ((len : ℚ) / rq - 1 / 2) * rq :=
      mul_le_mul_of_nonneg_right h3 (le_of_lt hrq0)
    have h5 : (len : ℚ) / rq * rq = (len : ℚ) := div_mul_cancel₀ _ (ne_of_gt hrq0)
    have h6 : (i : ℚ) * rq + 1 / 2 < (len : ℚ) := by nlinarith
    unfold jsRound
    rw [round_eq]
    exact Int.floor_lt.mpr (by push_cast; linarith)
  have hbn : (0 : ℤ) < jsRound (((i : ℚ) + 1) * rq) := by omega
  unfold nextOffsetBuffer
  omega

lemma resampleGo_isSome (input : List ℚ) (rq : ℚ) (hrq : 1 < rq) (N : ℕ)
    (hN : (N : ℤ) = jsRound ((input.length : ℚ) / rq)) :
    ∀ remaining offsetResult, offsetResult + remaining = N →
      ∀ e ∈ resampleGo input rq offsetResult
          ((jsRound ((offsetResult : ℚ) * rq)).toNat) remaining, e.isSome := by
  intro remaining
  induction remaining with
  | zero =>
    intro o _ e he
    simp [resampleGo] at he
  | succ r ih =>
    intro o ho e he
    rw [resampleGo] at he
    rcases List.mem_cons.mp he with h | h
    · have hwin := window_lower input.length rq hrq o N hN (by omega)
      rw [if_neg (by omega)] at h
      subst h
      rfl
    · have hcast : nextOffsetBuffer rq o = (jsRound (((o + 1 : ℕ) : ℚ) * rq)).toNat := by
        unfold nextOffsetBuffer
        push_cast
        rfl
      rw [hcast] at h
      exact ih (o + 1) (by omega) e h

lemma resampleGo_const (c : ℚ) (input : List ℚ) (hc : ∀ a ∈ input, a = c)
    (rq : ℚ) (hrq : 1 < rq) (N : ℕ)
    (hN : (N : ℤ) = jsRound ((input.length : ℚ) / rq)) :
    ∀ remaining offsetResult, offsetResult + remaining = N →
      ∀ e ∈ resampleGo input rq offsetResult
          ((jsRound ((offsetResult : ℚ) * rq)).toNat) remaining, e = some c := by
  intro remaining
  induction remaining with
  | zero =>
    intro o _ e he
    simp [resampleGo] at he
  | succ r ih =>
    intro o ho e he
    rw [resampleGo] at he
    rcases List.mem_cons.mp he with h | h
    · have hwin := window_lower input.length rq hrq o N hN (by omega)
      rw [if_neg (by omega)] at h
      subst h
      congr 1
      have hcount : ∀ b ∈ (List.range' ((jsRound ((o : ℚ) * rq)).toNat)
          (min (nextOffsetBuffer rq o) input.length - (jsRound ((o : ℚ) * rq)).toNat)).map
            (fun i => input.getD i 0), b = c := by
        intro b hb
        rcases List.mem_map.mp hb with ⟨i, hi, rfl⟩
        rw [List.mem_range'] at hi
        obtain ⟨k, hk, rfl⟩ := hi
        simp only [one_mul]
        have hilen : (jsRound ((o : ℚ) * rq)).toNat + k < input.length := by omega
        rw [List.getD_eq_getElem _ _ hilen]
        exact hc _ (List.getElem_mem hilen)
      unfold windowSum
      rw [List.eq_replicate_of_mem hcount, List.sum_replicate, nsmul_eq_mul,
        List.length_map, List.length_range']
      have hne : ((min (nextOffsetBuffer rq o) input.length
          - (jsRound ((o : ℚ) * rq)).toNat : ℕ) : ℚ) ≠ 0 := by
        have : min (nextOffsetBuffer rq o) input.length
            - (jsRound ((o : ℚ) * rq)).toNat ≠ 0 := by omega
        exact_mod_cast this
      field_simp
    · have hcast : nextOffsetBuffer rq o = (jsRound (((o + 1 : ℕ) : ℚ) * rq)).toNat := by
        unfold nextOffsetBuffer
        push_cast
        rfl
      rw [hcast] at h
      exact ih (o + 1) (by omega) e h

/-- Concrete evaluation of an upsampling call: with one input sample and
a doubled rate, `newLength = Math.round(1 / (1/2)) = 2`, the first window
is `[0, 1)` and the second window `[1, min(1, 1))` is empty, so the
second slot is `0 / 0 = NaN` (`none`). -/
lemma resampleBuffer_upsample_eval : resampleBuffer [1] 2 4 = [some 1, none] := by
  unfold resampleBuffer
  rw [if_neg (by norm_num : ¬ (2 : ℚ) = 4)]
  have hN : (jsRound ((([1] : List ℚ).length : ℚ) / (2 / 4))).toNat = 2 := by
    have h2 : jsRound ((([1] : List ℚ).length : ℚ) / (2 / 4)) = 2 := by
      unfold jsRound
      norm_num [round_eq, Int.floor_eq_iff]
    rw [h2]
    rfl
  rw [hN]
  have hnob0 : nextOffsetBuffer (2 / 4) 0 = 1 := by
    have h2 : jsRound ((((0 : ℕ) : ℚ) + 1) * (2 / 4)) = 1 := by
      unfold jsRound
      norm_num [round_eq, Int.floor_eq_iff]
    unfold nextOffsetBuffer
    rw [h2]
    rfl
  have hnob1 : nextOffsetBuffer (2 / 4) 1 = 1 := by
    have h2 : jsRound ((((1 : ℕ) : ℚ) + 1) * (2 / 4)) = 1 := by
      unfold jsRound
      norm_num [round_eq, Int.floor_eq_iff]
    unfold nextOffsetBuffer
    rw [h2]
    rfl
  rw [show (2 : ℕ) = 1 + 1 from rfl]
  rw [resampleGo, resampleGo, resampleGo]
  rw [hnob0, hnob1]
  have hws : windowSum [1] 0 1 = 1 := by
    unfold windowSum
    rw [show (1 - 0 : ℕ) = 1 from rfl, show List.range' 0 1 = [0] from by decide]
    simp [List.getD]
  norm_num [hws]

/-! ## Claims about the Resampler -/

/-- C7, confirmed: for all positive rates the Resampler's output length
is `round(len * Rout / Rin)` (the source computes the equal quantity
`Math.round(len / (Rin/Rout))`); zero-length input yields zero-length
output (`round 0 = 0`) and no error path exists, the function being
total. -/
theorem c7_theorem (x : List ℚ) (rin rout : ℚ) (h1 : 0 < rin) (h2 : 0 < rout) :
    ((resampleBuffer x rin rout).length : ℤ) = jsRound ((x.length : ℚ) * rout / rin) := by
  unfold resampleBuffer
  by_cases h : rin = rout
  · rw [if_pos h]
    subst h
    rw [List.length_map]
    have harg : (x.length : ℚ) * rin / rin = (x.length : ℚ) := by
      field_simp
    rw [harg]
    unfold jsRound
    rw [round_natCast]
  · rw [if_neg h]
    rw [resampleGo_length]
    have harg : (x.length : ℚ) / (rin / rout) = (x.length : ℚ) * rout / rin :=
      div_div_eq_mul_div _ _ _
    have hnn : (0 : ℤ) ≤ jsRound ((x.length : ℚ) / (rin / rout)) :=
      jsRound_nonneg _ (div_nonneg (Nat.cast_nonneg _) (le_of_lt (div_pos h1 h2)))
    rw [Int.toNat_of_nonneg hnn, harg]

/-- C7, witness: a concrete strict downsampling instance. -/
theorem c7_witness :
    ((resampleBuffer [1, 2, 3, 4] 4 2).length : ℤ)
      = jsRound ((([1, 2, 3, 4] : List ℚ).length : ℚ) * 2 / 4) :=
  c7_theorem [1, 2, 3, 4] 4 2 (by norm_num) (by norm_num)

/-- C8, counterexample: the constant-preservation claim fails for
upsampling rates. For constant input `[1]` with `Rin = 2 < Rout = 4` the
second output slot has an empty averaging window, so it is `NaN`
(`none`), not the constant `1`. -/
theorem c8_counterexample : ¬ (∀ e ∈ resampleBuffer [1] 2 4, e = some 1) := by
  intro h
  have hmem : (none : Option ℚ) ∈ resampleBuffer [1] 2 4 := by
    rw [resampleBuffer_upsample_eval]
    simp
  have := h none hmem
  simp at this

/-- C8, amended: block-averaging preserves constant signals whenever
`Rout ≤ Rin`: for `Rin = Rout` via the identity fast path, and for
strict downsampling because every averaging window then holds at least
one sample. (For upsampling, `Rin < Rout`, an output slot with an empty
window is `NaN` rather than the constant, as the counterexample shows.) -/
theorem c8_theorem (c : ℚ) (x : List ℚ) (rin rout : ℚ) (h2 : 0 < rout)
    (hle : rout ≤ rin) (hc : ∀ a ∈ x, a = c) :
    ∀ e ∈ resampleBuffer x rin rout, e = some c := by
  intro e he
  unfold resampleBuffer at he
  by_cases h : rin = rout
  · rw [if_pos h] at he
    rcases List.mem_map.mp he with ⟨a, ha, rfl⟩
    rw [hc a ha]
  · rw [if_neg h] at he
    have hlt : rout < rin := lt_of_le_of_ne hle (fun hh => h hh.symm)
    have hrq : 1 < rin / rout := (one_lt_div h2).mpr hlt
    have hnn : (0 : ℤ) ≤ jsRound ((x.length : ℚ) / (rin / rout)) :=
      jsRound_nonneg _ (div_nonneg (Nat.cast_nonneg _)
        (le_of_lt (lt_trans one_pos hrq)))
    have key := resampleGo_const c x hc (rin / rout) hrq
      ((jsRound ((x.length : ℚ) / (rin / rout))).toNat)
      (Int.toNat_of_nonneg hnn)
      ((jsRound ((x.length : ℚ) / (rin / rout))).toNat) 0 (by omega)
    have hz : (jsRound (((0 : ℕ) : ℚ) * (rin / rout))).toNat = 0 := by
      unfold jsRound
      norm_num
    rw [hz] at key
    exact key e he

/-- C8, witness: the amended statement at constant input `[2, 2]` with
`Rin = 4`, `Rout = 2` — the first output slot carries the constant. -/
theorem c8_witness : (resampleBuffer [2, 2] 4 2).getD 0 (some 2) = some 2 := by
  have h := c8_theorem 2 [2, 2] 4 2 (by norm_num) (by norm_num) (by simp)
  cases hl : resampleBuffer [2, 2] 4 2 with
  | nil => rfl
  | cons a l =>
    rw [List.getD_cons_zero]
    exact h a (by rw [hl]; exact List.mem_cons_self a l)

/-- C10, confirmed: under strict downsampling (`Rout < Rin`) every
averaging window of `resampleBuffer` holds at least one input sample, so
`accum / count` never divides by zero and every output slot is a finite
number (`isSome`); and this guarantee indeed does not extend to
upsampling, where a window may be empty and produce `NaN` (`none`). -/
theorem c10_theorem :
    (∀ (x : List ℚ) (rin rout : ℚ), x ≠ [] → 0 < rout → rout < rin →
      ∀ e ∈ resampleBuffer x rin rout, e.isSome) ∧
    ¬ (∀ e ∈ resampleBuffer [1] 2 4, e.isSome) := by
  constructor
  · intro x rin rout _ h2 hlt e he
    unfold resampleBuffer at he
    rw [if_neg (ne_of_lt hlt).symm] at he
    have hrq : 1 < rin / rout := (one_lt_div h2).mpr hlt
    have hnn : (0 : ℤ) ≤ jsRound ((x.length : ℚ) / (rin / rout)) :=
      jsRound_nonneg _ (div_nonneg (Nat.cast_nonneg _)
        (le_of_lt (lt_trans one_pos hrq)))
    have key := resampleGo_isSome x (rin / rout) hrq
      ((jsRound ((x.length : ℚ) / (rin / rout))).toNat)
      (Int.toNat_of_nonneg hnn)
      ((jsRound ((x.length : ℚ) / (rin / rout))).toNat) 0 (by omega)
    have hz : (jsRound (((0 : ℕ) : ℚ) * (rin / rout))).toNat = 0 := by
      unfold jsRound
      norm_num
    rw [hz] at key
    exact key e he
  · intro h
    have hmem : (none : Option ℚ) ∈ resampleBuffer [1] 2 4 := by
      rw [resampleBuffer_upsample_eval]
      simp
    have := h none hmem
    simp at this

/-- C10, witness: the universal part instantiated at a concrete strict
downsampling call — its first output slot is a finite number. -/
theorem c10_witness :
    ((resampleBuffer [1, 2, 3, 4] 4 2).getD 0 (some 0)).isSome = true := by
  have h := c10_theorem.1 [1, 2, 3, 4] 4 2 (by simp) (by norm_num) (by norm_num)
  cases hl : resampleBuffer [1, 2, 3, 4] 4 2 with
  | nil => rfl
  | cons a l =>
    rw [List.getD_cons_zero]
    exact h a (by rw [hl]; exact List.mem_cons_self a l)

/-! ## Transcription Line Buffer, delay model
(`handleLocalTranscription`, `src/index.js` lines 428-444, identical in
`src/unnamed/part_000` lines 469-485 and `src/unnamed/part_002` lines
461-477) -/

/-- The JS test `!text.trim()`: the fragment is empty or whitespace-only. -/
def isBlank (text : List Char) : Bool := text.all (fun c => c.isWhitespace)

/-- State of the delay-model Line Buffer: the pending accumulator
(`localTranscriptionBuffer`), the single outstanding debounce timer
(`localTranscriptionTimer`, carrying its fire time and the captured
`lineToTranslate`), the locally committed lines (time and text of each
`appendAndTranslate(line, 'You')` call) and the fragments relayed over
the data channel. -/
structure DelayState where
  buffer : List Char
  timer : Option (ℕ × List Char)
  committed : List (ℕ × List Char)
  sent : List (List Char)
deriving DecidableEq

/-- `handleLocalTranscription(text)` of the delay model, at time `now`
with data-channel openness `dcOpen`: drop blank fragments on an empty
accumulator; otherwise append, relay the raw fragment if the channel is
open, cancel any outstanding timer and start a fresh one for
`translationDelay` ms capturing the whole accumulator. -/
def handleLocalTranscription (delay : ℕ) (dcOpen : Bool) (now : ℕ)
    (text : List Char) (s : DelayState) : DelayState :=
  if isBlank text && s.buffer.isEmpty then s
  else
    { buffer := s.buffer ++ text
      timer := some (now + delay, s.buffer ++ text)
      committed := s.committed
      sent := if dcOpen then s.sent ++ [text] else s.sent }

/-- Firing of the `setTimeout` callback at time `now`: if the single
outstanding timer is due, `appendAndTranslate(lineToTranslate, 'You')`
commits the captured line and the accumulator resets to empty; an absent
or not-yet-due timer does nothing. -/
def fireDelayTimer (now : ℕ) (s : DelayState) : DelayState :=
  match s.timer with
  | none => s
  | some (t, line) =>
    if t ≤ now then
      { buffer := [], timer := none,
        committed := s.committed ++ [(t, line)], sent := s.sent }
    else s

/-- A run of the delay model over timestamped fragments (times
nondecreasing): before each fragment is handled any due timer fires, and
after the last fragment the outstanding timer is allowed to fire at its
own deadline. -/
def runDelay (delay : ℕ) (dcOpen : Bool) (frags : List (ℕ × List Char)) :
    DelayState :=
  let s := frags.foldl
    (fun s e => handleLocalTranscription delay dcOpen e.1 e.2 (fireDelayTimer e.1 s))
    { buffer := [], timer := none, committed := [], sent := [] }
  match s.timer with
  | some (t, _) => fireDelayTimer t s
  | none => s

/-! ## Transcription Line Buffer, push-to-talk model
(`startTranscribing` / `stopTranscribing` / `handleLocalTranscription`,
`src/unnamed/part_001` lines 904-935) -/

/-- Speaker attribution of a committed line (`appendAndTranslate`'s
second argument, `'You'` or `'Participant'`). -/
inductive Speaker where
  | you
  | participant
deriving DecidableEq

/-- State of the push-to-talk revision: the gate (`isTalking`), the
resources its guards test (`isMeetingActive`, `scriptProcessor`,
`audioContext`), whether the processor is connected to the destination
(which gates audio flow), the accumulator, committed lines and relayed
messages. -/
structure PttState where
  isMeetingActive : Bool
  isTalking : Bool
  hasScriptProcessor : Bool
  hasAudioContext : Bool
  processorConnected : Bool
  buffer : List Char
  committed : List (List Char × Speaker)
  sent : List (List Char)
deriving DecidableEq

namespace Ptt

/-- Push-to-talk `handleLocalTranscription(text)`
(`src/unnamed/part_001` lines 932-935): fragments are ignored unless the
gate is open; accepted fragments only append to the accumulator — there
is no per-fragment relay in this revision. -/
def handleLocalTranscription (text : List Char) (s : PttState) : PttState :=
  if !s.isTalking then s
  else { s with buffer := s.buffer ++ text }

/-- `startTranscribing` (`src/unnamed/part_001` lines 904-912): opens
the gate and reconnects the script processor, guarded on the meeting
being active, the gate being closed, and both audio resources existing. -/
def startTranscribing (s : PttState) : PttState :=
  if !s.isMeetingActive || s.isTalking || !s.hasScriptProcessor
      || !s.hasAudioContext then s
  else { s with isTalking := true, processorConnected := true }

/-- `stopTranscribing` (`src/unnamed/part_001` lines 913-929): closes
the gate and disconnects the processor; then, only if the accumulator is
non-blank, commits it as one line attributed to the local speaker
(`'You'`), relays the whole line if the data channel is open, and clears
the accumulator. A blank accumulator is neither committed nor cleared. -/
def stopTranscribing (dcOpen : Bool) (s : PttState) : PttState :=
  if !s.isMeetingActive || !s.isTalking || !s.hasScriptProcessor then s
  else
    if isBlank s.buffer then
      { s with isTalking := false, processorConnected := false }
    else
      { s with
        isTalking := false
        processorConnected := false
        committed := s.committed ++ [(s.buffer, Speaker.you)]
        sent := if dcOpen then s.sent ++ [s.buffer] else s.sent
        buffer := [] }

end Ptt

/-! ## Claims about the Transcription Line Buffer -/

/-- C5, confirmed: in the delay model each accepted fragment appends to
the accumulator and cancels-and-replaces the single outstanding timer
with one due `delay` ms later capturing the whole accumulator (debounce,
no commit at append time); a due timer commits exactly one line, the
captured accumulator content, and resets the accumulator; and in the
concrete scenario — fragments `"a"` at `t = 0` and `"b"` at `t = 500`
with delay `2000` — exactly one line `"ab"` is committed, at
`t = 2500`. -/
theorem c5_theorem :
    (∀ (delay : ℕ) (dcOpen : Bool) (now : ℕ) (text : List Char) (s : DelayState),
      (isBlank text && s.buffer.isEmpty) = false →
        handleLocalTranscription delay dcOpen now text s =
          { buffer := s.buffer ++ text
            timer := some (now + delay, s.buffer ++ text)
            committed := s.committed
            sent := if dcOpen then s.sent ++ [text] else s.sent }) ∧
    (∀ (now : ℕ) (s : DelayState) (t : ℕ) (line : List Char),
      s.timer = some (t, line) → t ≤ now →
        fireDelayTimer now s =
          { buffer := [], timer := none,
            committed := s.committed ++ [(t, line)], sent := s.sent }) ∧
    (runDelay 2000 true [(0, ['a']), (500, ['b'])]).committed
      = [(2500, ['a', 'b'])] := by
  refine ⟨?_, ?_, ?_⟩
  · intro delay dcOpen now text s h
    unfold handleLocalTranscription
    rw [h]
    rfl
  · intro now s t line hts htle
    unfold fireDelayTimer
    rw [hts]
    show (if t ≤ now then
        ({ buffer := [], timer := none,
           committed := s.committed ++ [(t, line)], sent := s.sent } : DelayState)
      else s) = _
    rw [if_pos htle]
  · decide

/-- C5, witness: the two hypothesised conjuncts instantiated at concrete
inputs — a non-blank fragment `"a"` appended to the empty initial state,
and a due timer fired at its own deadline. -/
theorem c5_witness :
    handleLocalTranscription 2000 true 0 ['a']
        { buffer := [], timer := none, committed := [], sent := [] } =
      { buffer := ['a'], timer := some (2000, ['a']), committed := [],
        sent := [['a']] } ∧
    fireDelayTimer 2000
        { buffer := ['a'], timer := some (2000, ['a']), committed := [],
          sent := [['a']] } =
      { buffer := [], timer := none, committed := [(2000, ['a'])],
        sent := [['a']] } :=
  ⟨c5_theorem.1 2000 true 0 ['a'] _ (by decide),
   c5_theorem.2.1 2000 _ 2000 ['a'] rfl (by decide)⟩

/-- C9, confirmed: in the delay model a fragment is dropped with no
effect at all exactly when it is blank (empty or whitespace-only) and
the accumulator is empty; in every other case — in particular a
whitespace-only fragment arriving on a non-empty accumulator — it is
appended, relayed when the channel is open, and the debounce timer is
cancelled and restarted `delay` ms after `now`, pushing the commit time
back. -/
theorem c9_theorem :
    (∀ (delay : ℕ) (dcOpen : Bool) (now : ℕ) (text : List Char) (s : DelayState),
      (isBlank text && s.buffer.isEmpty) = true →
        handleLocalTranscription delay dcOpen now text s = s) ∧
    (∀ (delay : ℕ) (dcOpen : Bool) (now : ℕ) (text : List Char) (s : DelayState),
      (isBlank text && s.buffer.isEmpty) = false →
        (handleLocalTranscription delay dcOpen now text s).buffer
            = s.buffer ++ text ∧
        (handleLocalTranscription delay dcOpen now text s).sent
            = (if dcOpen then s.sent ++ [text] else s.sent) ∧
        (handleLocalTranscription delay dcOpen now text s).timer
            = some (now + delay, s.buffer ++ text)) := by
  constructor
  · intro delay dcOpen now text s h
    unfold handleLocalTranscription
    rw [h]
    rfl
  · intro delay dcOpen now text s h
    unfold handleLocalTranscription
    rw [h]
    exact ⟨rfl, rfl, rfl⟩

/-- C9, witness: the whitespace-only fragment `" "` is dropped on an
empty accumulator, and on the non-empty accumulator `"hi"` it is
appended, relayed and restarts the timer at `700 + 2000`. -/
theorem c9_witness :
    handleLocalTranscription 2000 true 700 [' ']
        { buffer := [], timer := none, committed := [], sent := [] } =
      { buffer := [], timer := none, committed := [], sent := [] } ∧
    (handleLocalTranscription 2000 true 700 [' ']
        { buffer := ['h', 'i'], timer := some (2100, ['h', 'i']),
          committed := [], sent := [] }).buffer = ['h', 'i', ' '] ∧
    (handleLocalTranscription 2000 true 700 [' ']
        { buffer := ['h', 'i'], timer := some (2100, ['h', 'i']),
          committed := [], sent := [] }).sent = [[' ']] ∧
    (handleLocalTranscription 2000 true 700 [' ']
        { buffer := ['h', 'i'], timer := some (2100, ['h', 'i']),
          committed := [], sent := [] }).timer = some (2700, ['h', 'i', ' ']) := by
  refine ⟨c9_theorem.1 2000 true 700 [' '] _ (by decide), ?_⟩
  have h := c9_theorem.2 2000 true 700 [' ']
    { buffer := ['h', 'i'], timer := some (2100, ['h', 'i']),
      committed := [], sent := [] } (by decide)
  exact ⟨h.1, h.2.1, h.2.2⟩

/-- C4, counterexample: in the push-to-talk model an accepted fragment
(`isTalking = true`, data channel open) is appended to the accumulator
but NOT relayed to the peer — `handleLocalTranscription` of that
revision performs no send at all, so nothing is relayed per fragment
regardless of the channel state. -/
theorem c4_counterexample :
    (Ptt.handleLocalTranscription ['h', 'i']
        { isMeetingActive := true, isTalking := true,
          hasScriptProcessor := true, hasAudioContext := true,
          processorConnected := true, buffer := [], committed := [],
          sent := [] }).buffer = [] ++ ['h', 'i'] ∧
    ¬ ((Ptt.handleLocalTranscription ['h', 'i']
        { isMeetingActive := true, isTalking := true,
          hasScriptProcessor := true, hasAudioContext := true,
          processorConnected := true, buffer := [], committed := [],
          sent := [] }).sent = [] ++ [['h', 'i']]) := by
  constructor
  · decide
  · decide

/-- C4, amended: only the delay model relays each accepted raw fragment
immediately (when the data channel is open) and independently of commit
timing; the push-to-talk model relays nothing per fragment — it sends
the whole accumulated line exactly once at gate close, when the channel
is open and the accumulator is non-blank. -/
theorem c4_theorem :
    (∀ (delay now : ℕ) (text : List Char) (s : DelayState),
      (isBlank text && s.buffer.isEmpty) = false →
        (handleLocalTranscription delay true now text s).sent
            = s.sent ++ [text] ∧
        (handleLocalTranscription delay true now text s).committed
            = s.committed) ∧
    (∀ (text : List Char) (s : PttState), s.isTalking = true →
        (Ptt.handleLocalTranscription text s).sent = s.sent) ∧
    (∀ s : PttState, s.isMeetingActive = true → s.isTalking = true →
      s.hasScriptProcessor = true → isBlank s.buffer = false →
        (Ptt.stopTranscribing true s).sent = s.sent ++ [s.buffer]) := by
  refine ⟨?_, ?_, ?_⟩
  · intro delay now text s h
    unfold handleLocalTranscription
    rw [h]
    exact ⟨rfl, rfl⟩
  · intro text s h
    unfold Ptt.handleLocalTranscription
    rw [h]
    rfl
  · intro s h1 h2 h3 h4
    unfold Ptt.stopTranscribing
    rw [h1, h2, h3, h4]
    rfl

/-- C4, witness: the three conjuncts instantiated — a delay-model
fragment `"a"` relayed on arrival with nothing committed, a push-to-talk
fragment `"a"` accepted with nothing relayed, and a push-to-talk gate
close relaying the accumulated `"hello"`. -/
theorem c4_witness :
    (handleLocalTranscription 2000 true 0 ['a']
        { buffer := [], timer := none, committed := [], sent := [] }).sent
      = [] ++ [['a']] ∧
    (Ptt.handleLocalTranscription ['a']
        { isMeetingActive := true, isTalking := true,
          hasScriptProcessor := true, hasAudioContext := true,
          processorConnected := true, buffer := [], committed := [],
          sent := [] }).sent = [] ∧
    (Ptt.stopTranscribing true
        { isMeetingActive := true, isTalking := true,
          hasScriptProcessor := true, hasAudioContext := true,
          processorConnected := true, buffer := ['h', 'e', 'l', 'l', 'o'],
          committed := [], sent := [] }).sent
      = [] ++ [['h', 'e', 'l', 'l', 'o']] :=
  ⟨(c4_theorem.1 2000 0 ['a'] _ (by decide)).1,
   c4_theorem.2.1 ['a'] _ (by decide),
   c4_theorem.2.2 _ (by decide) (by decide) (by decide) (by decide)⟩

/-- C6, counterexample: closing the gate with the whitespace-only
accumulator `" "` commits nothing AND leaves the accumulator uncleared
(the reset `localTranscriptionBuffer = ''` sits inside the
`trim().length > 0` branch), contradicting the claim that on gate close
whatever has accumulated is committed and the accumulator resets. -/
theorem c6_counterexample :
    (Ptt.stopTranscribing true
        { isMeetingActive := true, isTalking := true,
          hasScriptProcessor := true, hasAudioContext := true,
          processorConnected := true, buffer := [' '], committed := [],
          sent := [] }).committed = [] ∧
    ¬ ((Ptt.stopTranscribing true
        { isMeetingActive := true, isTalking := true,
          hasScriptProcessor := true, hasAudioContext := true,
          processorConnected := true, buffer := [' '], committed := [],
          sent := [] }).buffer = []) := by
  constructor
  · decide
  · decide

/-- C6, amended: fragments arriving while the gate is closed are
discarded with no effect at all (so they never reach the accumulator nor
any committed line); on gate close a NON-BLANK accumulator is committed
immediately as one line attributed to the local speaker and the
accumulator resets to empty (in particular `"hello"` commits `"hello"`),
while a blank (empty or whitespace-only) accumulator is neither
committed nor cleared. -/
theorem c6_theorem :
    (∀ (text : List Char) (s : PttState), s.isTalking = false →
        Ptt.handleLocalTranscription text s = s) ∧
    (∀ (dcOpen : Bool) (s : PttState), s.isMeetingActive = true →
      s.isTalking = true → s.hasScriptProcessor = true →
      isBlank s.buffer = false →
        Ptt.stopTranscribing dcOpen s =
          { s with
            isTalking := false
            processorConnected := false
            committed := s.committed ++ [(s.buffer, Speaker.you)]
            sent := if dcOpen then s.sent ++ [s.buffer] else s.sent
            buffer := [] }) ∧
    (∀ (dcOpen : Bool) (s : PttState), s.isMeetingActive = true →
      s.isTalking = true → s.hasScriptProcessor = true →
      isBlank s.buffer = true →
        Ptt.stopTranscribing dcOpen s =
          { s with isTalking := false, processorConnected := false }) := by
  refine ⟨?_, ?_, ?_⟩
  · intro text s h
    unfold Ptt.handleLocalTranscription
    rw [h]
    rfl
  · intro dcOpen s h1 h2 h3 h4
    unfold Ptt.stopTranscribing
    rw [h1, h2, h3, h4]
    rfl
  · intro dcOpen s h1 h2 h3 h4
    unfold Ptt.stopTranscribing
    rw [h1, h2, h3, h4]
    rfl

/-- C6, witness: a fragment arriving with the gate closed is discarded,
and closing the gate with accumulator `"hello"` immediately commits
`"hello"` attributed to the local speaker and clears the accumulator. -/
theorem c6_witness :
    Ptt.handleLocalTranscription ['x']
        { isMeetingActive := true, isTalking := false,
          hasScriptProcessor := true, hasAudioContext := true,
          processorConnected := false, buffer := [], committed := [],
          sent := [] } =
      { isMeetingActive := true, isTalking := false,
        hasScriptProcessor := true, hasAudioContext := true,
        processorConnected := false, buffer := [], committed := [],
        sent := [] } ∧
    Ptt.stopTranscribing true
        { isMeetingActive := true, isTalking := true,
          hasScriptProcessor := true, hasAudioContext := true,
          processorConnected := true, buffer := ['h', 'e', 'l', 'l', 'o'],
          committed := [], sent := [] } =
      { isMeetingActive := true, isTalking := false,
        hasScriptProcessor := true, hasAudioContext := true,
        processorConnected := false, buffer := [],
        committed := [(['h', 'e', 'l', 'l', 'o'], Speaker.you)],
        sent := [['h', 'e', 'l', 'l', 'o']] } :=
  ⟨c6_theorem.1 ['x'] _ (by decide),
   (c6_theorem.2.1 true _ (by decide) (by decide) (by decide) (by decide)).trans
     (by decide)⟩

/-! ## Failure/Reset Policy: teardown
(`resetApplicationState`, `src/index.js` lines 215-288, and `endMeeting`,
`src/unnamed/part_000` lines 205-253) -/

/-- The values passed to `updateStatus` across the revisions
(the spec's SessionState as rendered by the single status indicator). -/
inductive Status where
  | idle
  | waiting
  | connecting
  | listening
  | ready
  | error
deriving DecidableEq

/-- Module state of `src/index.js` — the fields read or written by
`resetApplicationState` (DOM-only resets are not modelled). `none` is a
JS `null`; `audioContextClosed = some b` is a live context whose
`state == 'closed'` equals `b`; `peerDestroyed = some b` is a live peer
object whose `destroyed` flag equals `b`. -/
structure AppState where
  isMeetingActive : Bool
  mediaStreamTracks : Option (List ℕ)
  scriptProcessor : Bool
  audioContextClosed : Option Bool
  sessionPromise : Bool
  dataConnection : Bool
  peerDestroyed : Option Bool
  meetingId : Option (List Char)
  localTranscriptionBuffer : List Char
  localTranscriptionTimer : Option ℕ
  status : Status
deriving DecidableEq

/-- The external release operations a teardown run actually performed.
Every operation is guarded in the source by a null/flag test, so the
log records exactly which guards were taken; invoking one of these on an
absent resource would be the JS error the idempotence claim rules out. -/
structure TeardownLog where
  stoppedTracks : List ℕ
  disconnectedProcessor : Bool
  closedContext : Bool
  closedSession : Bool
  closedDataConnection : Bool
  destroyedPeer : Bool
  clearedTimer : Bool
deriving DecidableEq

/-- The empty log: a teardown call that touched no external resource. -/
def noTeardown : TeardownLog :=
  { stoppedTracks := []
    disconnectedProcessor := false
    closedContext := false
    closedSession := false
    closedDataConnection := false
    destroyedPeer := false
    clearedTimer := false }

/-- `resetApplicationState` (`src/index.js` lines 215-288): stops media
tracks, disconnects audio processing, closes the recognition session,
closes the data connection, destroys the peer (if present and not
already destroyed), clears the transcription buffer and timer, and
resets the status to Idle — every release guarded on the resource
existing, every field reassigned to its initial value. -/
def resetApplicationState (s : AppState) : AppState × TeardownLog :=
  ({ isMeetingActive := false
     mediaStreamTracks := none
     scriptProcessor := false
     audioContextClosed := none
     sessionPromise := false
     dataConnection := false
     peerDestroyed := none
     meetingId := none
     localTranscriptionBuffer := []
     localTranscriptionTimer := none
     status := Status.idle },
   { stoppedTracks := s.mediaStreamTracks.getD []
     disconnectedProcessor := s.scriptProcessor
     closedContext := s.audioContextClosed = some false
     closedSession := s.sessionPromise
     closedDataConnection := s.dataConnection
     destroyedPeer := s.peerDestroyed = some false
     clearedTimer := s.localTranscriptionTimer.isSome })

/-- Module state of `src/unnamed/part_000` — the fields read or written
by its `endMeeting`/`resetUI` (which additionally manage the cloned
recognition stream and the container stream for the peer). -/
structure P0State where
  isMeetingActive : Bool
  mediaStreamTracks : Option (List ℕ)
  geminiStreamTracks : Option (List ℕ)
  peerStreamPresent : Bool
  sessionPromise : Bool
  scriptProcessor : Bool
  audioContextClosed : Option Bool
  dataConnection : Bool
  peerPresent : Bool
  localTranscriptionBuffer : List Char
  localTranscriptionTimer : Option ℕ
  meetingId : Option (List Char)
  status : Status
deriving DecidableEq

/-- `endMeeting` (`src/unnamed/part_000` lines 205-253): a no-op unless
a meeting is active (`if (!isMeetingActive) return;`). When active it
stops both streams' tracks, closes the recognition session, disconnects
the processor, closes the audio context (nulling it only in the
not-yet-closed branch, so an already-closed context object stays
assigned), closes the data connection, destroys the peer, and `resetUI`
sets the status to Idle. It does NOT clear `localTranscriptionBuffer`,
the debounce timer, or `meetingId`. -/
def endMeeting (s : P0State) : P0State × TeardownLog :=
  if !s.isMeetingActive then (s, noTeardown)
  else
    ({ isMeetingActive := false
       mediaStreamTracks := none
       geminiStreamTracks := none
       peerStreamPresent := false
       sessionPromise := false
       scriptProcessor := false
       audioContextClosed :=
         match s.audioContextClosed with
         | some true => some true
         | _ => none
       dataConnection := false
       peerPresent := false
       localTranscriptionBuffer := s.localTranscriptionBuffer
       localTranscriptionTimer := s.localTranscriptionTimer
       meetingId := s.meetingId
       status := Status.idle },
     { stoppedTracks := s.mediaStreamTracks.getD [] ++ s.geminiStreamTracks.getD []
       disconnectedProcessor := s.scriptProcessor
       closedContext := s.audioContextClosed = some false
       closedSession := s.sessionPromise
       closedDataConnection := s.dataConnection
       destroyedPeer := s.peerPresent
       clearedTimer := false })

lemma endMeeting_of_inactive (s : P0State) (h : s.isMeetingActive = false) :
    endMeeting s = (s, noTeardown) := by
  unfold endMeeting
  rw [h]
  rfl

lemma endMeeting_clears_active (s : P0State) :
    (endMeeting s).1.isMeetingActive = false := by
  unfold endMeeting
  by_cases h : s.isMeetingActive
  · rw [h]
    rfl
  · rw [Bool.not_eq_true] at h
    rw [h]
    exact h

/-! ## Claims about teardown -/

/-- C3, counterexample: `endMeeting` of `src/unnamed/part_000`, invoked
in the state its own `startMeeting` failure handler reaches (media
acquired, status Error, `isMeetingActive` still false), is a guarded
no-op: the status stays Error, not Idle, so teardown from that session
state does not leave the state Idle as claimed. -/
theorem c3_counterexample :
    ¬ ((endMeeting
        { isMeetingActive := false, mediaStreamTracks := some [0, 1],
          geminiStreamTracks := none, peerStreamPresent := false,
          sessionPromise := false, scriptProcessor := false,
          audioContextClosed := none, dataConnection := false,
          peerPresent := false, localTranscriptionBuffer := [],
          localTranscriptionTimer := none, meetingId := none,
          status := Status.error }).1.status = Status.idle) := by
  decide

/-- C3, amended: `resetApplicationState` (`src/index.js`) is total (no
unguarded resource access, hence no errors), leaves the status Idle from
every state — including states where no resource exists yet — and a
second invocation changes nothing and releases nothing. `endMeeting`
(`src/unnamed/part_000`) is likewise total and idempotent, and yields
Idle from every ACTIVE state, but from a non-active state it is a
guarded no-op that releases nothing and leaves the state — including a
non-Idle status — unchanged. -/
theorem c3_theorem :
    (∀ s : AppState, (resetApplicationState s).1.status = Status.idle) ∧
    (∀ s : AppState,
      resetApplicationState (resetApplicationState s).1
        = ((resetApplicationState s).1, noTeardown)) ∧
    (∀ s : P0State, s.isMeetingActive = true →
      (endMeeting s).1.status = Status.idle ∧
      (endMeeting s).1.isMeetingActive = false) ∧
    (∀ s : P0State, s.isMeetingActive = false →
      endMeeting s = (s, noTeardown)) ∧
    (∀ s : P0State,
      endMeeting (endMeeting s).1 = ((endMeeting s).1, noTeardown)) := by
  refine ⟨?_, ?_, ?_, ?_, ?_⟩
  · intro s
    rfl
  · intro s
    rfl
  · intro s h
    unfold endMeeting
    rw [h]
    exact ⟨rfl, rfl⟩
  · intro s h
    unfold endMeeting
    rw [h]
    rfl
  · intro s
    exact endMeeting_of_inactive _ (endMeeting_clears_active s)

/-- C3, witness: the hypothesised conjuncts instantiated — a reset from
the pristine no-resource state, and `endMeeting` from an active state
and from the pristine inactive state. -/
theorem c3_witness :
    (resetApplicationState
        { isMeetingActive := false, mediaStreamTracks := none,
          scriptProcessor := false, audioContextClosed := none,
          sessionPromise := false, dataConnection := false,
          peerDestroyed := none, meetingId := none,
          localTranscriptionBuffer := [], localTranscriptionTimer := none,
          status := Status.error }).1.status = Status.idle ∧
    ((endMeeting
        { isMeetingActive := true, mediaStreamTracks := some [0, 1],
          geminiStreamTracks := some [2], peerStreamPresent := true,
          sessionPromise := true, scriptProcessor := true,
          audioContextClosed := some false, dataConnection := true,
          peerPresent := true, localTranscriptionBuffer := [],
          localTranscriptionTimer := none, meetingId := some ['m'],
          status := Status.listening }).1.status = Status.idle ∧
      (endMeeting
        { isMeetingActive := true, mediaStreamTracks := some [0, 1],
          geminiStreamTracks := some [2], peerStreamPresent := true,
          sessionPromise := true, scriptProcessor := true,
          audioContextClosed := some false, dataConnection := true,
          peerPresent := true, localTranscriptionBuffer := [],
          localTranscriptionTimer := none, meetingId := some ['m'],
          status := Status.listening }).1.isMeetingActive = false) ∧
    endMeeting
        { isMeetingActive := false, mediaStreamTracks := none,
          geminiStreamTracks := none, peerStreamPresent := false,
          sessionPromise := false, scriptProcessor := false,
          audioContextClosed := none, dataConnection := false,
          peerPresent := false, localTranscriptionBuffer := [],
          localTranscriptionTimer := none, meetingId := none,
          status := Status.idle } =
      ({ isMeetingActive := false, mediaStreamTracks := none,
         geminiStreamTracks := none, peerStreamPresent := false,
         sessionPromise := false, scriptProcessor := false,
         audioContextClosed := none, dataConnection := false,
         peerPresent := false, localTranscriptionBuffer := [],
         localTranscriptionTimer := none, meetingId := none,
         status := Status.idle }, noTeardown) :=
  ⟨c3_theorem.1 _,
   c3_theorem.2.2.1 _ (by decide),
   c3_theorem.2.2.2.1 _ (by decide)⟩

/-! ## Stream Splitter
(`startMeeting` of `src/unnamed/part_000` lines 158-204, versus
`startMeeting`/`setupGeminiTranscription` of `src/index.js` lines
181-213 and 393-426) -/

/-- Modelled from the spec: the capture collaborator of spec section 6
(`MediaStreamTrack` clone/stop of the browser). A world holds the next
fresh track id and the set of stopped tracks; ids below `nextId` are the
allocated track handles. Cloning allocates a fresh, independent handle;
stopping marks exactly the given handle. -/
structure MediaWorld where
  nextId : ℕ
  stopped : List ℕ
deriving DecidableEq

/-- Modelled from the spec: `track.clone()` of the capture collaborator —
a fresh independent device handle for the same source. -/
def cloneTrack (w : MediaWorld) (_t : ℕ) : ℕ × MediaWorld :=
  (w.nextId, { w with nextId := w.nextId + 1 })

/-- Modelled from the spec: `track.stop()` of the capture collaborator. -/
def stopTrack (w : MediaWorld) (t : ℕ) : MediaWorld :=
  { w with stopped := t :: w.stopped }

/-- Modelled from the spec: whether a track still delivers media. -/
def isLive (w : MediaWorld) (t : ℕ) : Bool := !(w.stopped.contains t)

/-- The two feeds one session wires up: the audio track handed to the
peer transport and the audio track tapped by the recognition pipeline. -/
structure Feeds where
  transportTrack : ℕ
  recognitionTrack : ℕ
deriving DecidableEq

/-- The "Photocopier" splitter of `src/unnamed/part_000` `startMeeting`
(lines 180-187): `clonedAudioTrack = originalAudioTrack.clone()`;
`peerMediaStream` gets the original track, `geminiMediaStream` the
clone. -/
def part0SplitStreams (w : MediaWorld) (captureTrack : ℕ) : Feeds × MediaWorld :=
  ({ transportTrack := captureTrack
     recognitionTrack := (cloneTrack w captureTrack).1 },
   (cloneTrack w captureTrack).2)

/-- The wiring of `src/index.js`: `peer.call(peerId, mediaStream)` /
`call.answer(mediaStream)` hand the transport the capture stream, and
`setupGeminiTranscription` taps `createMediaStreamSource(mediaStream)` —
the very same stream, hence the very same audio track, with no clone. -/
def indexJsFeeds (captureTrack : ℕ) : Feeds :=
  { transportTrack := captureTrack
    recognitionTrack := captureTrack }

/-! ## Claims about stream isolation -/

/-- C2, counterexample: in the `src/index.js` revision the Recognition
feed's audio track IS the Transport feed's track (no duplicate exists),
and stopping the Recognition feed's track therefore stops the Transport
feed's outgoing audio — so the claimed invariant does not hold in every
revision. -/
theorem c2_counterexample :
    (indexJsFeeds 0).recognitionTrack = (indexJsFeeds 0).transportTrack ∧
    isLive (stopTrack { nextId := 1, stopped := [] }
        (indexJsFeeds 0).recognitionTrack)
      (indexJsFeeds 0).transportTrack = false := by
  constructor
  · decide
  · decide

/-- C2, amended: in the `src/unnamed/part_000` revision the Recognition
feed's audio track is a freshly cloned handle, distinct from the
Transport feed's track, and stopping the clone leaves the Transport
track live; the invariant is not one of every revision, because in
`src/index.js` both consumers share the capture track itself and the
isolation fails there (as the counterexample shows). -/
theorem c2_theorem (w : MediaWorld) (captureTrack : ℕ)
    (halloc : captureTrack < w.nextId) :
    (part0SplitStreams w captureTrack).1.recognitionTrack
        ≠ (part0SplitStreams w captureTrack).1.transportTrack ∧
    (isLive w captureTrack = true →
      isLive
        (stopTrack (part0SplitStreams w captureTrack).2
          (part0SplitStreams w captureTrack).1.recognitionTrack)
        ((part0SplitStreams w captureTrack).1.transportTrack) = true) := by
  constructor
  · show w.nextId ≠ captureTrack
    omega
  · intro hlive
    show (!((w.nextId :: w.stopped).contains captureTrack)) = true
    unfold isLive at hlive
    have hne : (captureTrack == w.nextId) = false := by
      simp only [beq_eq_false_iff_ne, ne_eq]
      omega
    simp only [List.contains_cons, hne, Bool.false_or]
    exact hlive

/-- C2, witness: the part_000 splitter applied in a world holding one
allocated, live capture track. -/
theorem c2_witness :
    (part0SplitStreams { nextId := 1, stopped := [] } 0).1.recognitionTrack
        ≠ (part0SplitStreams { nextId := 1, stopped := [] } 0).1.transportTrack ∧
    isLive
        (stopTrack (part0SplitStreams { nextId := 1, stopped := [] } 0).2
          (part0SplitStreams { nextId := 1, stopped := [] } 0).1.recognitionTrack)
        ((part0SplitStreams { nextId := 1, stopped := [] } 0).1.transportTrack)
      = true :=
  ⟨(c2_theorem { nextId := 1, stopped := [] } 0 (by decide)).1,
   (c2_theorem { nextId := 1, stopped := [] } 0 (by decide)).2 (by decide)⟩
